import Mathlib

/-!
Verification of the webhook relay handler in `src/lambda/lambda.py`
(`lambda_handler`), a GitHub-issues → Slack bridge running on AWS Lambda.

The Python program is shallowly embedded:

* `PyVal` models the Python values that flow through the handler
  (the JSON-like fragment: `None`, `bool`, `int`, `str`, `list`, `dict`
  with string keys — exactly the values `json.loads` produces, plus the
  incoming event object). JSON floats are not needed by any claim and are
  not modelled.
* `json.loads` is a trusted library function and is abstracted as a
  parameter `parse : String → Option PyVal` (`Option.none` = the string is
  not valid JSON, so `json.loads` raises and the handler's `except` arm
  substitutes the `raw` fallback dictionary). Calling `json.loads` on a
  non-string raises `TypeError`, which the same `except Exception` arm
  catches; `parseBody` reflects both paths.
* `json.dumps` is embedded as `jsonDumps` (default separators, keys in
  insertion order, `ensure_ascii` escaping).
* The f-string interpolation `f"... : <issue_url>"` uses Python `str()`,
  embedded as `pyStr` (with `pyRepr` for containers; `repr` of a string
  models the ASCII escaping rules).
* `urllib.request.Request(url, ...)` validates that the URL names a
  scheme (`urllib.parse`'s `_splittype` applied after `unwrap` and
  fragment splitting) and raises `ValueError: unknown url type` otherwise;
  this check is embedded as `requestUrlOk`. It happens on line 84 of the
  source, OUTSIDE the `try:` block of lines 86–93.
* `urlopen` outcomes are abstracted as an oracle
  `net : HttpRequest → NetOutcome`; the source's `try/except HTTPError/
  except URLError` only prints in every arm, which the handler's match on
  the oracle mirrors.
* Python expressions that can raise (`"issue" in payload`,
  `payload["issue"]`) return `Except PyErr`; an uncaught exception makes
  the handler end in `HandlerResult.raised`.
-/

/-- The fragment of Python values handled by the program: the values
`json.loads` can produce (minus floats, which no claim touches) and the
event object. Dictionary keys are strings, as in every dictionary this
program builds or parses from JSON. -/
inductive PyVal where
  | none : PyVal
  | bool : Bool → PyVal
  | int : Int → PyVal
  | str : String → PyVal
  | list : List PyVal → PyVal
  | dict : List (String × PyVal) → PyVal

/-- Uncaught Python exceptions reachable in `lambda_handler`. -/
inductive PyErr where
  | typeError : PyErr
  | keyError : PyErr
  | valueError : PyErr
deriving DecidableEq

/-- The single outbound HTTP request the handler can issue
(line 84 of the source: URL, `Content-Type` header, encoded JSON data). -/
structure HttpRequest where
  url : String
  contentType : String
  data : String
deriving DecidableEq

/-- The API-Gateway response dictionary built on lines 112–115:
`statusCode` and the `json.dumps`-serialized body. -/
structure LambdaResponse where
  statusCode : Nat
  body : String
deriving DecidableEq

/-- Outcome of `urlopen` on one request: success with an HTTP status,
`urllib.error.HTTPError`, or `urllib.error.URLError`. -/
inductive NetOutcome where
  | success : Nat → NetOutcome
  | httpError : Nat → String → NetOutcome
  | urlError : String → NetOutcome
deriving DecidableEq

/-- Result of one handler invocation: either a normal return carrying the
list of outbound POSTs that were issued, or an uncaught Python exception
(again with the POSTs issued before the raise). -/
inductive HandlerResult where
  | ok : List HttpRequest → LambdaResponse → HandlerResult
  | raised : List HttpRequest → PyErr → HandlerResult
deriving DecidableEq

/-- Python dictionary lookup on string keys (Python dictionaries have
unique keys; on the duplicate-free association lists this program builds,
first-match lookup coincides with Python's). -/
def dictGet (kvs : List (String × PyVal)) (k : String) : Option PyVal :=
  match kvs with
  | [] => Option.none
  | (k', v) :: rest => if k' = k then Option.some v else dictGet rest k

/-- Python `needle in xs` for a list `xs` and a string needle: membership
under Python `==`, which for a string needle holds exactly at equal
string elements. -/
def listHasStr (xs : List PyVal) (k : String) : Bool :=
  xs.any fun v =>
    match v with
    | PyVal.str s => s = k
    | _ => false

/-- List infix test used to model Python's substring containment. -/
def listIsInfix (needle : List Char) : List Char → Bool
  | [] => needle.isEmpty
  | c :: rest => needle.isPrefixOf (c :: rest) || listIsInfix needle rest

/-- Python `needle in hay` for strings: substring containment. -/
def strContainsSub (hay needle : String) : Bool :=
  listIsInfix needle.toList hay.toList

/-- Python truthiness (`bool(v)`) on the modelled values. -/
def truthy : PyVal → Bool
  | PyVal.none => false
  | PyVal.bool b => b
  | PyVal.int n => n != 0
  | PyVal.str s => s != ""
  | PyVal.list xs => !xs.isEmpty
  | PyVal.dict kvs => !kvs.isEmpty

/-- Truthiness of `os.getenv("SLACK_URL")`: the variable is set and
non-empty. Used on lines 44, 75 and 109 of the source. -/
def slackTruthy : Option String → Bool
  | Option.none => false
  | Option.some s => s != ""

/-- The double-quote character. -/
def quoteChar : Char := Char.ofNat 34

/-- Lowercase hexadecimal digit. -/
def hexDigitChar (n : Nat) : Char :=
  if n < 10 then Char.ofNat (48 + n) else Char.ofNat (87 + n % 16)

/-- A JSON `\uXXXX` escape for a 16-bit code unit. -/
def uEscape (n : Nat) : String :=
  String.mk ['\\', 'u', hexDigitChar (n / 4096 % 16), hexDigitChar (n / 256 % 16),
    hexDigitChar (n / 16 % 16), hexDigitChar (n % 16)]

/-- Escaping of one character by `json.dumps` with its default
`ensure_ascii=True`: short escapes for the common controls, `\uXXXX` for
other controls and for all non-ASCII characters (surrogate pairs beyond
the BMP). -/
def jsonEscChar (c : Char) : String :=
  if c == quoteChar then "\\\""
  else if c == '\\' then "\\\\"
  else if c == '\n' then "\\n"
  else if c == '\r' then "\\r"
  else if c == '\t' then "\\t"
  else if c.toNat == 8 then "\\b"
  else if c.toNat == 12 then "\\f"
  else if c.toNat < 32 then uEscape c.toNat
  else if c.toNat < 127 then String.singleton c
  else if c.toNat < 65536 then uEscape c.toNat
  else uEscape (55296 + (c.toNat - 65536) / 1024) ++ uEscape (56320 + (c.toNat - 65536) % 1024)

/-- A JSON string literal as `json.dumps` prints it. -/
def jsonQuote (s : String) : String :=
  "\"" ++ String.join (s.toList.map jsonEscChar) ++ "\""

mutual

/-- `json.dumps` with default arguments: separators `", "` and `": "`,
keys in insertion order. -/
def jsonDumps : PyVal → String
  | PyVal.none => "null"
  | PyVal.bool true => "true"
  | PyVal.bool false => "false"
  | PyVal.int n => toString n
  | PyVal.str s => jsonQuote s
  | PyVal.list xs => "[" ++ jsonDumpsItems xs ++ "]"
  | PyVal.dict kvs => "\x7b" ++ jsonDumpsEntries kvs ++ "\x7d"

/-- Comma-separated serialization of list items. -/
def jsonDumpsItems : List PyVal → String
  | [] => ""
  | [v] => jsonDumps v
  | v :: rest => jsonDumps v ++ ", " ++ jsonDumpsItems rest

/-- Comma-separated serialization of dictionary entries. -/
def jsonDumpsEntries : List (String × PyVal) → String
  | [] => ""
  | [(k, v)] => jsonQuote k ++ ": " ++ jsonDumps v
  | (k, v) :: rest => jsonQuote k ++ ": " ++ jsonDumps v ++ ", " ++ jsonDumpsEntries rest

end

/-- The apostrophe character (Python's default string-repr quote). -/
def aposChar : Char := Char.ofNat 39

/-- Two lowercase hexadecimal digits. -/
def hex2 (n : Nat) : String :=
  String.mk [hexDigitChar (n / 16 % 16), hexDigitChar (n % 16)]

/-- Escaping of one character inside a Python string repr using quote
character `q`: backslash and the quote are escaped, the common controls
get short escapes, other ASCII controls get `\xXX`. (Python additionally
`\x`-escapes non-printable characters above ASCII, a case no value in
this development reaches.) -/
def pyReprEscChar (q c : Char) : String :=
  if c == '\\' then "\\\\"
  else if c == q then String.mk ['\\', q]
  else if c == '\n' then "\\n"
  else if c == '\r' then "\\r"
  else if c == '\t' then "\\t"
  else if c.toNat < 32 || c.toNat == 127 then "\\x" ++ hex2 c.toNat
  else String.singleton c

/-- Python `repr` of a string: single quotes by default, double quotes
when the string contains an apostrophe but no double quote. -/
def strRepr (s : String) : String :=
  let q := if s.toList.contains aposChar && !(s.toList.contains quoteChar)
    then quoteChar else aposChar
  String.singleton q ++ String.join (s.toList.map (pyReprEscChar q)) ++ String.singleton q

mutual

/-- Python `str()` as applied by the f-string on line 78 of the source:
identity on strings, `repr` otherwise. -/
def pyStr : PyVal → String
  | PyVal.str s => s
  | v => pyRepr v

/-- Python `repr` on the modelled values. -/
def pyRepr : PyVal → String
  | PyVal.none => "None"
  | PyVal.bool true => "True"
  | PyVal.bool false => "False"
  | PyVal.int n => toString n
  | PyVal.str s => strRepr s
  | PyVal.list xs => "[" ++ pyReprItems xs ++ "]"
  | PyVal.dict kvs => "\x7b" ++ pyReprEntries kvs ++ "\x7d"

/-- Comma-separated reprs of list items. -/
def pyReprItems : List PyVal → String
  | [] => ""
  | [v] => pyRepr v
  | v :: rest => pyRepr v ++ ", " ++ pyReprItems rest

/-- Comma-separated reprs of dictionary entries. -/
def pyReprEntries : List (String × PyVal) → String
  | [] => ""
  | [(k, v)] => strRepr k ++ ": " ++ pyRepr v
  | (k, v) :: rest => strRepr k ++ ": " ++ pyRepr v ++ ", " ++ pyReprEntries rest

end

/-- Python `str.strip()` whitespace set (space, tab, newline, carriage
return, vertical tab, form feed). -/
def isPySpace (c : Char) : Bool :=
  c == ' ' || c == '\t' || c == '\n' || c == '\r' || c == Char.ofNat 11 || c == Char.ofNat 12

/-- Python `str.strip()` on a character list. -/
def pyStripList (l : List Char) : List Char :=
  ((l.dropWhile isPySpace).reverse.dropWhile isPySpace).reverse

/-- Python `str.strip()`. -/
def pyStrip (s : String) : String :=
  String.mk (pyStripList s.toList)

/-- `urllib.parse.unwrap` on a character list, applied by `Request` to
its URL: strip whitespace, strip one layer of angle brackets (Python
compares the first character with `<` and the last with `>`, which can
both succeed only on two or more characters), strip a leading `URL:`. -/
def unwrapUrlList (l0 : List Char) : List Char :=
  let l := pyStripList l0
  let l := if l.head? == Option.some '<' && l.getLast? == Option.some '>'
    then pyStripList (l.drop 1).dropLast else l
  if ['U', 'R', 'L', ':'].isPrefixOf l then pyStripList (l.drop 4) else l

/-- The part of a URL before its fragment (`urllib.parse._splittag`,
which splits at the last hash sign), on a character list. -/
def splitTagPathList (l : List Char) : List Char :=
  if l.contains '#'
  then ((l.reverse.dropWhile (fun c => c != '#')).drop 1).reverse
  else l

/-- Whether `urllib.parse._splittype` finds a scheme: a non-empty run of
characters other than colon and slash, followed by a colon. -/
def splitTypeOkAux : List Char → Bool → Bool
  | [], _ => false
  | c :: rest, seen =>
    if c == ':' then seen
    else if c == '/' then false
    else splitTypeOkAux rest true

/-- Whether `urllib.request.Request(u, ...)` succeeds (line 84 of the
source). `Request` sets `full_url`, which unwraps the URL, splits off the
fragment and then requires a scheme, raising
`ValueError: unknown url type` otherwise — and line 84 sits OUTSIDE the
`try:` block of lines 86–93, so that `ValueError` escapes the handler. -/
def requestUrlOk (u : String) : Bool :=
  splitTypeOkAux (splitTagPathList (unwrapUrlList u.toList)) false

/-- Python `k in payload` for a string `k` (line 69 of the source):
key lookup on dictionaries, `==`-membership on lists, substring test on
strings, and `TypeError: argument ... is not iterable` on `None`,
booleans and numbers. -/
def pyContains (payload : PyVal) (k : String) : Except PyErr Bool :=
  match payload with
  | PyVal.dict kvs => Except.ok (dictGet kvs k).isSome
  | PyVal.list xs => Except.ok (listHasStr xs k)
  | PyVal.str s => Except.ok (strContainsSub s k)
  | _ => Except.error PyErr.typeError

/-- Python `payload[k]` for a string `k` (lines 69–70 of the source):
dictionary lookup (raising `KeyError` when absent), `TypeError` on every
other value — in particular on strings and lists, whose subscripts must
be integers. -/
def pySubscript (payload : PyVal) (k : String) : Except PyErr PyVal :=
  match payload with
  | PyVal.dict kvs =>
    match dictGet kvs k with
    | Option.some v => Except.ok v
    | Option.none => Except.error PyErr.keyError
  | _ => Except.error PyErr.typeError

/-- Lines 67–70 of the source: `issue_url = None`, then
`if "issue" in payload and isinstance(payload["issue"], dict):
issue_url = payload["issue"].get("html_url")`. The `and` short-circuits,
`.get` defaults to `None`, and either Python expression may raise. -/
def extractIssueUrl (payload : PyVal) : Except PyErr PyVal :=
  match pyContains payload "issue" with
  | Except.error e => Except.error e
  | Except.ok false => Except.ok PyVal.none
  | Except.ok true =>
    match pySubscript payload "issue" with
    | Except.error e => Except.error e
    | Except.ok (PyVal.dict ikvs) => Except.ok ((dictGet ikvs "html_url").getD PyVal.none)
    | Except.ok _ => Except.ok PyVal.none

/-- Lines 50–53 of the source: if the event is a dictionary with a
`body` key, the raw body is that value, otherwise the event itself. -/
def resolveBody (event : PyVal) : PyVal :=
  match event with
  | PyVal.dict kvs =>
    match dictGet kvs "body" with
    | Option.some b => b
    | Option.none => PyVal.dict kvs
  | e => e

/-- Lines 58–62 of the source: `payload = json.loads(body)` with
`except Exception: payload = {"raw": body}` — `json.loads` of a
non-string raises `TypeError` and of an invalid JSON string raises
`JSONDecodeError`, both caught by the same arm. -/
def parseBody (parse : String → Option PyVal) (body : PyVal) : PyVal :=
  match body with
  | PyVal.str s =>
    match parse s with
    | Option.some v => v
    | Option.none => PyVal.dict [("raw", PyVal.str s)]
  | b => PyVal.dict [("raw", b)]

/-- The parsed payload of an event: body resolution followed by parsing
with the `raw` fallback. -/
def payloadOf (parse : String → Option PyVal) (event : PyVal) : PyVal :=
  parseBody parse (resolveBody event)

/-- Lines 106–115 of the source: the response dictionary with
`statusCode` 200 and the `json.dumps` of
`message` / `issueUrl` / `connectedToSlack`. -/
def mkResponse (issue_url : PyVal) (connected : Bool) : LambdaResponse :=
  ⟨200, jsonDumps (PyVal.dict
    [("message", PyVal.str "success"),
     ("issueUrl", issue_url),
     ("connectedToSlack", PyVal.bool connected)])⟩

/-- Line 78 of the source: the Slack message text built by the f-string. -/
def slackMessageText (issue_url : PyVal) : String :=
  ":tada: New GitHub Issue created: " ++ pyStr issue_url

/-- Lines 78–84 of the source: the outbound request — the configured URL
(`slack_url` is truthy whenever this is built, so `getD` never supplies
its default), the `Content-Type: application/json` header, and the
UTF-8-encoded `json.dumps` of the one-key `text` dictionary. -/
def slackRequest (slack_url : Option String) (issue_url : PyVal) : HttpRequest :=
  ⟨slack_url.getD "", "application/json",
    jsonDumps (PyVal.dict [("text", PyVal.str (slackMessageText issue_url))])⟩

/-- `lambda_handler` of `src/lambda/lambda.py`, lines 34–115.
`parse` abstracts `json.loads` on strings, `net` abstracts the network's
answer to `urlopen`, `slack_url` is `os.getenv("SLACK_URL")`, and `event`
is the incoming event (the `context` argument is unused in the source and
omitted). Log statements carry no semantics and are dropped; the three
arms of the match on `net` mirror the `with urlopen(...)` success path
and the two `except` arms of lines 86–93, each of which only logs. -/
def lambda_handler (parse : String → Option PyVal) (net : HttpRequest → NetOutcome)
    (slack_url : Option String) (event : PyVal) : HandlerResult :=
  match extractIssueUrl (payloadOf parse event) with
  | Except.error e => HandlerResult.raised [] e
  | Except.ok issue_url =>
    if truthy issue_url && slackTruthy slack_url then
      if requestUrlOk (slack_url.getD "") then
        match net (slackRequest slack_url issue_url) with
        | NetOutcome.success _ =>
          HandlerResult.ok [slackRequest slack_url issue_url] (mkResponse issue_url (slackTruthy slack_url))
        | NetOutcome.httpError _ _ =>
          HandlerResult.ok [slackRequest slack_url issue_url] (mkResponse issue_url (slackTruthy slack_url))
        | NetOutcome.urlError _ =>
          HandlerResult.ok [slackRequest slack_url issue_url] (mkResponse issue_url (slackTruthy slack_url))
      else HandlerResult.raised [] PyErr.valueError
    else HandlerResult.ok [] (mkResponse issue_url (slackTruthy slack_url))

/-- Payload shapes on which lines 67–70 of the source cannot raise:
every dictionary, and lists/strings in which the membership test for
`"issue"` comes out false (a true membership test on a list or string
leads straight into `payload["issue"]`, a `TypeError`). `None`, booleans
and numbers raise `TypeError` already at `"issue" in payload`. -/
def safeShape : PyVal → Bool
  | PyVal.dict _ => true
  | PyVal.list xs => !(listHasStr xs "issue")
  | PyVal.str s => !(strContainsSub s "issue")
  | _ => false

/-- The raw body is one `json.loads` raises on: a string that is not
valid JSON (`JSONDecodeError`) or a non-string (`TypeError`); both are
caught by the `except Exception` arm on line 60 of the source. -/
def bodyParseFails (parse : String → Option PyVal) : PyVal → Bool
  | PyVal.str s => (parse s).isNone
  | _ => true

/-- A network on which every request succeeds with HTTP 200. -/
def netOk : HttpRequest → NetOutcome := fun _ => NetOutcome.success 200

/-- A `json.loads` oracle for runs whose bodies are never valid JSON. -/
def parseNone : String → Option PyVal := fun _ => Option.none

/-- `json.loads` on the body `"null"` (and on no other body used with
it): the JSON literal `null` parses to Python `None`. -/
def parseNull : String → Option PyVal := fun s =>
  if s == "null" then Option.some PyVal.none else Option.none

/-- `json.loads` on the body `"true"`: the JSON literal `true` parses to
Python `True`. -/
def parseTrue : String → Option PyVal := fun s =>
  if s == "true" then Option.some (PyVal.bool true) else Option.none

/-- The issue URL used by the concrete scenarios. -/
def issueUrl5 : String := "https://github.com/org/repo/issues/5"

/-- A GitHub issues payload: a mapping with `issue.html_url` set. -/
def issuePayload : PyVal :=
  PyVal.dict [("issue", PyVal.dict [("html_url", PyVal.str issueUrl5)])]

/-- The JSON text of `issuePayload` (equal to its `json.dumps`, proved
in `issueBody_is_dumps`). -/
def issueBody : String :=
  "\x7b\"issue\": \x7b\"html_url\": \"https://github.com/org/repo/issues/5\"\x7d\x7d"

/-- `json.loads` on `issueBody`: parses back to `issuePayload`. -/
def parseIssue : String → Option PyVal := fun s =>
  if s == issueBody then Option.some issuePayload else Option.none

/-- A GitHub issues payload whose `html_url` is the empty string. -/
def emptyUrlPayload : PyVal :=
  PyVal.dict [("issue", PyVal.dict [("html_url", PyVal.str "")])]

/-- The JSON text of `emptyUrlPayload` (equal to its `json.dumps`,
proved in `emptyUrlBody_is_dumps`). -/
def emptyUrlBody : String :=
  "\x7b\"issue\": \x7b\"html_url\": \"\"\x7d\x7d"

/-- `json.loads` on `emptyUrlBody`: parses back to `emptyUrlPayload`. -/
def parseEmptyUrl : String → Option PyVal := fun s =>
  if s == emptyUrlBody then Option.some emptyUrlPayload else Option.none

/-- The literal JSON text `issueBody` is exactly what `json.dumps`
produces from `issuePayload`, so `parseIssue` models `json.loads` on a
genuine round trip. -/
theorem issueBody_is_dumps : issueBody = jsonDumps issuePayload := by
  simp only [issuePayload, issueUrl5, jsonDumps, jsonDumpsEntries]
  rfl

/-- The literal JSON text `emptyUrlBody` is exactly what `json.dumps`
produces from `emptyUrlPayload`. -/
theorem emptyUrlBody_is_dumps : emptyUrlBody = jsonDumps emptyUrlPayload := by
  simp only [emptyUrlPayload, jsonDumps, jsonDumpsEntries]
  rfl

/-- The handler never looks at the network's answer: the `with urlopen`
success arm and both `except` arms of lines 86–93 only log, so runs that
differ only in the network's behavior produce identical results. -/
theorem handler_net_irrelevant (parse : String → Option PyVal)
    (net net' : HttpRequest → NetOutcome) (slack : Option String) (event : PyVal) :
    lambda_handler parse net slack event = lambda_handler parse net' slack event := by
  unfold lambda_handler
  cases extractIssueUrl (payloadOf parse event) with
  | error e => rfl
  | ok iu =>
    dsimp only
    by_cases h : (truthy iu && slackTruthy slack) = true
    · rw [if_pos h, if_pos h]
      by_cases hr : requestUrlOk (slack.getD "") = true
      · rw [if_pos hr, if_pos hr]
        cases net (slackRequest slack iu) <;> cases net' (slackRequest slack iu) <;> rfl
      · rw [if_neg hr, if_neg hr]
    · rw [if_neg h, if_neg h]

/-- On a safe-shaped payload the extraction of lines 67–70 returns
normally. -/
theorem safeShape_extract (p : PyVal) (h : safeShape p = true) :
    ∃ v, extractIssueUrl p = Except.ok v := by
  cases p with
  | dict kvs =>
    cases hd : dictGet kvs "issue" with
    | none => exact ⟨PyVal.none, by simp [extractIssueUrl, pyContains, hd]⟩
    | some v =>
      refine ⟨match v with
        | PyVal.dict ikvs => (dictGet ikvs "html_url").getD PyVal.none
        | _ => PyVal.none, ?_⟩
      cases v <;> simp [extractIssueUrl, pyContains, pySubscript, hd]
  | list xs =>
    have hl : listHasStr xs "issue" = false := by simpa [safeShape] using h
    exact ⟨PyVal.none, by simp [extractIssueUrl, pyContains, hl]⟩
  | str s =>
    have hl : strContainsSub s "issue" = false := by simpa [safeShape] using h
    exact ⟨PyVal.none, by simp [extractIssueUrl, pyContains, hl]⟩
  | none => simp [safeShape] at h
  | bool b => simp [safeShape] at h
  | int n => simp [safeShape] at h

/-- When `json.loads` raises, the payload is the `raw` fallback
dictionary of line 62. -/
theorem payload_fallback (parse : String → Option PyVal) (event : PyVal)
    (h : bodyParseFails parse (resolveBody event) = true) :
    payloadOf parse event = PyVal.dict [("raw", resolveBody event)] := by
  unfold payloadOf parseBody
  cases hb : resolveBody event with
  | str s =>
    rw [hb] at h
    simp only [bodyParseFails, Option.isNone] at h
    cases hp : parse s with
    | some v => rw [hp] at h; cases h
    | none => simp [hp]
  | none => rfl
  | bool b => rfl
  | int n => rfl
  | list xs => rfl
  | dict kvs => rfl

/-- C1 counterexample: the claim promises a 200 return for EVERY event,
explicitly including bodies parsing to valid JSON non-mappings. At the
concrete event whose body is the string `"null"` (JSON `null`, parsed to
Python `None`), line 69's `"issue" in payload` raises an uncaught
`TypeError: argument of type 'NoneType' is not iterable`, so the handler
raises instead of returning. -/
theorem C1_counterexample :
    lambda_handler parseNull netOk Option.none (PyVal.str "null") =
      HandlerResult.raised [] PyErr.typeError := by
  rfl

/-- C1 (amended): for every input event whose parsed payload is a
mapping, or a list or string on which the `"issue"` membership test is
false, and such that — whenever the destination is configured truthy —
the configured destination URL names a scheme, `lambda_handler`
terminates normally and returns a response with statusCode 200 (the
response is `mkResponse`, whose statusCode is 200 by construction). -/
theorem C1_amended (parse : String → Option PyVal) (net : HttpRequest → NetOutcome)
    (slack : Option String) (event : PyVal)
    (hsafe : safeShape (payloadOf parse event) = true)
    (hurl : slackTruthy slack = true → requestUrlOk (slack.getD "") = true) :
    ∃ ps iu, lambda_handler parse net slack event =
      HandlerResult.ok ps (mkResponse iu (slackTruthy slack)) := by
  obtain ⟨v, hv⟩ := safeShape_extract _ hsafe
  simp only [lambda_handler, hv]
  by_cases h : (truthy v && slackTruthy slack) = true
  · rw [if_pos h]
    have hs : slackTruthy slack = true := by
      cases hq : slackTruthy slack with
      | true => rfl
      | false => rw [hq, Bool.and_false] at h; cases h
    rw [if_pos (hurl hs)]
    cases net (slackRequest slack v) <;> exact ⟨[slackRequest slack v], v, rfl⟩
  · rw [if_neg h]
    exact ⟨[], v, rfl⟩

/-- C1 witness: the amended statement instantiated at a not-JSON body
with the destination unconfigured. -/
theorem C1_witness :
    ∃ ps iu, lambda_handler parseNone netOk Option.none (PyVal.dict []) =
      HandlerResult.ok ps (mkResponse iu (slackTruthy Option.none)) :=
  C1_amended parseNone netOk Option.none (PyVal.dict []) rfl
    (fun hcontra => absurd hcontra (by decide))

/-- C2 counterexample: with the body parsing to a mapping whose
`issue.html_url` is a non-empty string and the destination configured to
the (schemeless) string `"not-a-url"`, the claim promises one POST and a
200 return; instead `Request("not-a-url", ...)` on line 84 — outside the
`try:` — raises `ValueError: unknown url type`, so no POST is made and
nothing is returned. -/
theorem C2_counterexample :
    lambda_handler parseIssue netOk (Option.some "not-a-url") (PyVal.str issueBody) =
      HandlerResult.raised [] PyErr.valueError := by
  rfl

/-- C2 (amended): for every input whose resolved body parses to a
mapping with key `issue` mapping to a mapping whose `html_url` is a
non-empty string U, and the destination configured to a non-empty D that
names a URL scheme, the handler issues exactly one POST to D with
Content-Type `application/json` and body
`json.dumps` of the one-entry mapping sending `text` to
`":tada: New GitHub Issue created: " ++ U`, and returns statusCode 200
with a body serializing message `success`, issueUrl U and
connectedToSlack true. -/
theorem C2_amended (parse : String → Option PyVal) (net : HttpRequest → NetOutcome)
    (event : PyVal) (D U : String) (kvs ikvs : List (String × PyVal))
    (hD : D ≠ "") (hscheme : requestUrlOk D = true) (hU : U ≠ "")
    (hp : payloadOf parse event = PyVal.dict kvs)
    (hi : dictGet kvs "issue" = Option.some (PyVal.dict ikvs))
    (hu : dictGet ikvs "html_url" = Option.some (PyVal.str U)) :
    lambda_handler parse net (Option.some D) event =
      HandlerResult.ok
        [⟨D, "application/json",
          jsonDumps (PyVal.dict [("text", PyVal.str (":tada: New GitHub Issue created: " ++ U))])⟩]
        (mkResponse (PyVal.str U) true) := by
  have hext : extractIssueUrl (payloadOf parse event) = Except.ok (PyVal.str U) := by
    rw [hp]
    simp [extractIssueUrl, pyContains, pySubscript, hi, hu]
  have hUb : (U != "") = true := by
    have hfalse : (U == "") = false := beq_eq_false_iff_ne.mpr hU
    simp [bne, hfalse]
  have hDb : (D != "") = true := by
    have hfalse : (D == "") = false := beq_eq_false_iff_ne.mpr hD
    simp [bne, hfalse]
  have hconn : slackTruthy (Option.some D) = true := by simp [slackTruthy, hDb]
  simp only [lambda_handler, hext]
  have ht : (truthy (PyVal.str U) && slackTruthy (Option.some D)) = true := by
    simp [truthy, hUb, hconn]
  rw [if_pos ht]
  have hro : requestUrlOk ((Option.some D).getD "") = true := by simpa using hscheme
  rw [if_pos hro]
  have hreq : slackRequest (Option.some D) (PyVal.str U) =
      ⟨D, "application/json",
        jsonDumps (PyVal.dict [("text", PyVal.str (":tada: New GitHub Issue created: " ++ U))])⟩ := by
    simp [slackRequest, slackMessageText, pyStr]
  rw [hreq, hconn]
  cases net ⟨D, "application/json",
      jsonDumps (PyVal.dict [("text", PyVal.str (":tada: New GitHub Issue created: " ++ U))])⟩ <;>
    rfl

/-- C2 witness: the amended statement at the concrete scenario of the
specification (issue 5, destination a well-formed https URL). -/
theorem C2_witness :
    lambda_handler parseIssue netOk (Option.some "https://hooks.example.test/T000")
        (PyVal.str issueBody) =
      HandlerResult.ok
        [⟨"https://hooks.example.test/T000", "application/json",
          jsonDumps (PyVal.dict
            [("text", PyVal.str (":tada: New GitHub Issue created: " ++ issueUrl5))])⟩]
        (mkResponse (PyVal.str issueUrl5) true) :=
  C2_amended parseIssue netOk (PyVal.str issueBody) "https://hooks.example.test/T000" issueUrl5
    [("issue", PyVal.dict [("html_url", PyVal.str issueUrl5)])]
    [("html_url", PyVal.str issueUrl5)]
    (by decide) (by decide) (by decide) rfl rfl rfl

/-- C3 counterexample: the claim says every non-conforming payload shape
— numbers included — yields a null Issue Reference rather than an error.
At the parsed payload `5`, line 69's `"issue" in payload` raises an
uncaught `TypeError: argument of type 'int' is not iterable`. -/
theorem C3_counterexample :
    extractIssueUrl (PyVal.int 5) = Except.error PyErr.typeError := by
  rfl

/-- C3 (amended): the extraction of lines 67–70, characterized for every
payload shape. On a mapping it never errs: the Issue Reference is the
`html_url` value of the `issue` sub-mapping, `None` when `issue` is
absent, not a mapping, or lacks `html_url`. A list (resp. string) yields
`None` when it does not contain `"issue"` as an element (resp.
substring), but raises `TypeError` when it does (the subscript
`payload["issue"]` on a non-mapping). `None`, booleans and numbers raise
`TypeError` at the membership test itself. -/
theorem C3_amended (p : PyVal) :
    extractIssueUrl p =
      match p with
      | PyVal.dict kvs =>
        Except.ok (match dictGet kvs "issue" with
          | Option.some (PyVal.dict ikvs) => (dictGet ikvs "html_url").getD PyVal.none
          | _ => PyVal.none)
      | PyVal.list xs =>
        if listHasStr xs "issue" then Except.error PyErr.typeError else Except.ok PyVal.none
      | PyVal.str s =>
        if strContainsSub s "issue" then Except.error PyErr.typeError else Except.ok PyVal.none
      | _ => Except.error PyErr.typeError := by
  cases p with
  | dict kvs =>
    cases hd : dictGet kvs "issue" with
    | none => simp [extractIssueUrl, pyContains, pySubscript, hd]
    | some v => cases v <;> simp [extractIssueUrl, pyContains, pySubscript, hd]
  | list xs =>
    by_cases h : listHasStr xs "issue" = true <;>
      simp [extractIssueUrl, pyContains, pySubscript, h]
  | str s =>
    by_cases h : strContainsSub s "issue" = true <;>
      simp [extractIssueUrl, pyContains, pySubscript, h]
  | none => rfl
  | bool b => rfl
  | int n => rfl

/-- C4 counterexample: the claim says a malformed destination URL is
among the outbound errors that are caught, still yielding a 200 return.
With the destination configured to the schemeless
`"hooks.slack.com/services/T000/B000"` (a real Slack path merely missing
`https://`) and an issue URL present, `Request(...)` on line 84 raises an
uncaught `ValueError` before `urlopen` is ever called: the error
propagates and nothing is returned. -/
theorem C4_counterexample :
    lambda_handler parseIssue netOk (Option.some "hooks.slack.com/services/T000/B000")
        (PyVal.str issueBody) =
      HandlerResult.raised [] PyErr.valueError := by
  rfl

/-- C4 (amended): every error `urlopen` raises (HTTPError, URLError —
covering connection failures, non-2xx responses, timeouts and
unreachable hosts) is caught by lines 90–93 and leaves the result
exactly as if the POST had succeeded: a run against any network at all
equals the run against the all-success network. (A destination URL
without a scheme, however, raises an uncaught ValueError at request
construction on line 84, before `urlopen` — see the counterexample.) -/
theorem C4_amended (parse : String → Option PyVal) (slack : Option String) (event : PyVal)
    (failNet : HttpRequest → NetOutcome) :
    lambda_handler parse failNet slack event = lambda_handler parse netOk slack event :=
  handler_net_irrelevant parse failNet netOk slack event

/-- C5: for every raw body on which `json.loads` raises (a string that
is not valid JSON, or a non-string), line 62 substitutes the mapping
with the single key `raw` holding the raw body, and the handler returns
statusCode 200, issueUrl null, no POST — a parse failure is never
observable to the caller. -/
theorem C5_thm (parse : String → Option PyVal) (net : HttpRequest → NetOutcome)
    (slack : Option String) (event : PyVal)
    (h : bodyParseFails parse (resolveBody event) = true) :
    lambda_handler parse net slack event =
      HandlerResult.ok [] (mkResponse PyVal.none (slackTruthy slack)) := by
  have hp := payload_fallback parse event h
  have hext : extractIssueUrl (payloadOf parse event) = Except.ok PyVal.none := by
    rw [hp]; rfl
  simp only [lambda_handler, hext]
  rfl

/-- C5 witness: the handler on the literal body `"not json"` with the
destination unconfigured. -/
theorem C5_witness :
    lambda_handler parseNone netOk Option.none (PyVal.str "not json") =
      HandlerResult.ok [] (mkResponse PyVal.none (slackTruthy Option.none)) :=
  C5_thm parseNone netOk Option.none (PyVal.str "not json") rfl

/-- C6 counterexample: the claim promises a 200 return with
connectedToSlack false for EVERY event when the destination is
unconfigured. At the event whose body is `"true"` (JSON `true`, parsed
to Python `True`), line 69 raises an uncaught `TypeError` and nothing is
returned. -/
theorem C6_counterexample :
    lambda_handler parseTrue netOk Option.none (PyVal.str "true") =
      HandlerResult.raised [] PyErr.typeError := by
  rfl

/-- C6 (amended): when the destination is unconfigured (variable absent
or empty), no outbound POST is ever made, for any payload — and whenever
the handler returns at all, it returns statusCode 200 with
connectedToSlack false (payloads of unsafe shape make it raise
`TypeError` instead of returning). -/
theorem C6_amended (parse : String → Option PyVal) (net : HttpRequest → NetOutcome)
    (slack : Option String) (event : PyVal)
    (h : slackTruthy slack = false) :
    (∃ e, lambda_handler parse net slack event = HandlerResult.raised [] e) ∨
    (∃ iu, lambda_handler parse net slack event =
      HandlerResult.ok [] (mkResponse iu false)) := by
  cases hx : extractIssueUrl (payloadOf parse event) with
  | error e => exact Or.inl ⟨e, by simp only [lambda_handler, hx]⟩
  | ok iu =>
    refine Or.inr ⟨iu, ?_⟩
    simp only [lambda_handler, hx, h, Bool.and_false]
    rfl

/-- C6 witness: an empty-mapping event with the destination absent. -/
theorem C6_witness :
    (∃ e, lambda_handler parseNone netOk Option.none (PyVal.dict []) =
      HandlerResult.raised [] e) ∨
    (∃ iu, lambda_handler parseNone netOk Option.none (PyVal.dict []) =
      HandlerResult.ok [] (mkResponse iu false)) :=
  C6_amended parseNone netOk Option.none (PyVal.dict []) rfl

/-- C7: body resolution reads exactly the `body` key and nothing else.
A mapping event with a `body` key resolves to that value; a mapping
without one, and any non-mapping event, resolves to the event itself;
and the handler's entire behavior depends on the event only through
`resolveBody` — two events with equal resolved bodies are handled
identically, so no other field of the event is read. -/
theorem C7_thm :
    (∀ kvs v, dictGet kvs "body" = Option.some v → resolveBody (PyVal.dict kvs) = v) ∧
    (∀ kvs, dictGet kvs "body" = Option.none → resolveBody (PyVal.dict kvs) = PyVal.dict kvs) ∧
    (∀ event : PyVal, (∀ kvs, event ≠ PyVal.dict kvs) → resolveBody event = event) ∧
    (∀ (parse : String → Option PyVal) (net : HttpRequest → NetOutcome)
       (slack : Option String) (e e' : PyVal), resolveBody e = resolveBody e' →
       lambda_handler parse net slack e = lambda_handler parse net slack e') := by
  refine ⟨?_, ?_, ?_, ?_⟩
  · intro kvs v h
    simp [resolveBody, h]
  · intro kvs h
    simp [resolveBody, h]
  · intro event h
    cases event with
    | dict kvs => exact absurd rfl (h kvs)
    | none => rfl
    | bool b => rfl
    | int n => rfl
    | str s => rfl
    | list xs => rfl
  · intro parse net slack e e' h
    simp only [lambda_handler, payloadOf, h]

/-- C7 witness: a gateway event with a `body` key and an extra
`headers` field is handled exactly like the bare body string. -/
theorem C7_witness :
    lambda_handler parseNone netOk Option.none
        (PyVal.dict [("body", PyVal.str "x"), ("headers", PyVal.dict [])]) =
      lambda_handler parseNone netOk Option.none (PyVal.str "x") :=
  C7_thm.2.2.2 parseNone netOk Option.none
    (PyVal.dict [("body", PyVal.str "x"), ("headers", PyVal.dict [])]) (PyVal.str "x") rfl

/-- C8: the handler is deterministic in its returned value — two
invocations with the identical event and configuration, against an
unreachable-but-configured destination whose two failures may even
differ (any two URLError reasons), produce identical results, hence
byte-identical response envelopes. -/
theorem C8_thm (parse : String → Option PyVal) (slack : Option String) (event : PyVal)
    (r1 r2 : String) :
    lambda_handler parse (fun _ => NetOutcome.urlError r1) slack event =
      lambda_handler parse (fun _ => NetOutcome.urlError r2) slack event :=
  handler_net_irrelevant parse (fun _ => NetOutcome.urlError r1)
    (fun _ => NetOutcome.urlError r2) slack event

/-- C9: notification gating uses truthiness, not presence — when
`issue.html_url` is the empty string and the destination is configured,
line 75's `if issue_url and slack_url` is false, so no POST is made, yet
the response's issueUrl field is the empty string (serialized `""`, not
`null`) and connectedToSlack is true. -/
theorem C9_thm (parse : String → Option PyVal) (net : HttpRequest → NetOutcome)
    (event : PyVal) (D : String) (kvs ikvs : List (String × PyVal))
    (hD : slackTruthy (Option.some D) = true)
    (hp : payloadOf parse event = PyVal.dict kvs)
    (hi : dictGet kvs "issue" = Option.some (PyVal.dict ikvs))
    (hu : dictGet ikvs "html_url" = Option.some (PyVal.str "")) :
    lambda_handler parse net (Option.some D) event =
      HandlerResult.ok [] (mkResponse (PyVal.str "") true) := by
  have hext : extractIssueUrl (payloadOf parse event) = Except.ok (PyVal.str "") := by
    rw [hp]
    simp [extractIssueUrl, pyContains, pySubscript, hi, hu]
  simp only [lambda_handler, hext]
  have hc : (truthy (PyVal.str "") && slackTruthy (Option.some D)) = false := by
    simp [truthy]
  rw [hc]
  simp only [Bool.false_eq_true, if_false, hD]

/-- C9 witness: a payload with an empty `html_url` and a configured
https destination. -/
theorem C9_witness :
    lambda_handler parseEmptyUrl netOk (Option.some "https://hooks.example.test/T001")
        (PyVal.str emptyUrlBody) =
      HandlerResult.ok [] (mkResponse (PyVal.str "") true) :=
  C9_thm parseEmptyUrl netOk (PyVal.str emptyUrlBody) "https://hooks.example.test/T001"
    [("issue", PyVal.dict [("html_url", PyVal.str "")])]
    [("html_url", PyVal.str "")]
    (by decide) rfl rfl rfl

/-- C10: whenever the handler returns at all, the response is
`mkResponse` of some issue reference and of the truthiness of the
SLACK_URL value — so connectedToSlack is true exactly when that value is
a non-empty string, independently of whether a POST was attempted or of
its outcome (the network oracle and the posts list are universally
quantified), and in particular also when no issue URL was found. -/
theorem C10_thm (parse : String → Option PyVal) (net : HttpRequest → NetOutcome)
    (slack : Option String) (event : PyVal) (ps : List HttpRequest) (r : LambdaResponse)
    (h : lambda_handler parse net slack event = HandlerResult.ok ps r) :
    ∃ iu, r = mkResponse iu (slackTruthy slack) := by
  simp only [lambda_handler] at h
  split at h
  · exact HandlerResult.noConfusion h
  · split at h
    · split at h
      · split at h <;> (injection h with h1 h2; exact ⟨_, h2.symm⟩)
      · exact HandlerResult.noConfusion h
    · injection h with h1 h2
      exact ⟨_, h2.symm⟩

/-- C10 witness: a configured destination with an empty-mapping event —
no issue URL, no POST, yet connectedToSlack is true. -/
theorem C10_witness :
    ∃ iu, mkResponse PyVal.none true =
      mkResponse iu (slackTruthy (Option.some "https://hooks.example.test/T002")) :=
  C10_thm parseNone netOk (Option.some "https://hooks.example.test/T002") (PyVal.dict [])
    [] (mkResponse PyVal.none true) rfl
